import Mathlib

/-!
# Data-quality validation engine: shallow embedding

A shallow embedding of the rule registry, validator and aggregator of
`src/app.py` (a pandas/Streamlit data-quality checker), together with proofs
of the specified behaviour.

Modelling conventions:
* a cell value is `Value`: `null` models a missing entry (pandas `NaN`),
  `str` a string cell, `num` a numeric cell (rationals stand in for floats);
* Python's `re.match(pattern, s)` is modelled by the anchored-match predicate
  the pattern denotes, so a rule's `regex` field is `Option (String → Bool)`
  (`none` models the empty pattern string, which is falsy in Python);
* `df.query(cond)` is modelled by the evaluation outcome of the condition:
  either a row predicate or an evaluation error (`PredicateError` in the
  spec's Table contract);
* percentages are rationals extended with `Pct.inf`, since numpy division of
  a positive count by zero yields `inf` rather than raising.
-/

namespace DataQuality

/-- A cell value. `null` models a missing value (pandas `NaN`). -/
inductive Value where
  | null
  | str (s : String)
  | num (q : ℚ)
deriving DecidableEq

/-- Model of `pd.isnull` on a cell: true exactly for a missing value. -/
def isNull : Value → Bool
  | Value.null => true
  | _ => false

/-- Model of Python `str()` on a cell: the float `NaN` prints as `"nan"`,
strings print as themselves, numbers by their decimal representation. -/
def pyStr : Value → String
  | Value.null => "nan"
  | Value.str s => s
  | Value.num q => toString q

/-- Strip an optional leading sign, as Python `float()` accepts one. -/
def dropSign : List Char → List Char
  | [] => []
  | c :: rest => if c = '+' ∨ c = '-' then rest else c :: rest

/-- Split a character list at the first exponent marker `e`/`E`. -/
def splitExp : List Char → List Char × Option (List Char)
  | [] => ([], none)
  | c :: rest =>
    if c = 'e' ∨ c = 'E' then ([], some rest)
    else
      let p := splitExp rest
      (c :: p.1, p.2)

/-- A valid `float()` mantissa: digits with an optional fractional part, or a
fractional part alone, but not empty and not a bare dot. -/
def mantissaOk (s : List Char) : Bool :=
  let intPart := s.takeWhile (·.isDigit)
  let rest := s.dropWhile (·.isDigit)
  match rest with
  | [] => !intPart.isEmpty
  | '.' :: frac => (!intPart.isEmpty || !frac.isEmpty) && frac.all (·.isDigit)
  | _ => false

/-- A valid `float()` exponent: an optional sign followed by digits. -/
def exponentOk (s : List Char) : Bool :=
  let t := dropSign s
  !t.isEmpty && t.all (·.isDigit)

/-- Model of Python `float(s)` succeeding on a string: optional surrounding
whitespace and sign, then `inf`/`infinity`/`nan` (case-insensitive) or a
decimal literal with optional fraction and exponent. -/
def pyFloatStringOk (s : String) : Bool :=
  let t := (s.data.dropWhile (·.isWhitespace)).reverse.dropWhile (·.isWhitespace) |>.reverse
  let t := dropSign t
  let low := t.map Char.toLower
  if low = "inf".data ∨ low = "infinity".data ∨ low = "nan".data then true
  else
    match splitExp t with
    | (m, none) => mantissaOk m
    | (m, some e) => mantissaOk m && exponentOk e

/-- Model of `float(value)` succeeding (line 191 of `src/app.py`):
`float(nan)` succeeds, a numeric cell converts, a string is parsed. -/
def floatParses : Value → Bool
  | Value.null => true
  | Value.num _ => true
  | Value.str s => pyFloatStringOk s

/-- Model of `pd.to_datetime(value)` succeeding (line 200 of `src/app.py`).
`pd.to_datetime(NaN)` yields `NaT` without raising, and a number is read as an
epoch offset, so both succeed; for strings we model the permissive parsing as
accepting digit-and-separator shapes. No theorem below depends on the string
case. -/
def datetimeParses : Value → Bool
  | Value.null => true
  | Value.num _ => true
  | Value.str s =>
      s.data.any (·.isDigit) &&
      s.data.all (fun c => c.isDigit || c = '-' || c = '/' || c = ':'
                            || c = ' ' || c = '.' || c = 'T')

/-- A table row: cell lookup by column name. -/
abbrev Row : Type := String → Value

/-- The in-memory table (the uploaded dataframe): named columns and ordered
rows. -/
structure Table where
  cols : List String
  rows : List Row

/-- The evaluation outcome of a cross-column condition string, modelling
`df.query(f"not (cond)")` (lines 224-236 of `src/app.py`): the condition
either denotes a per-row boolean predicate or fails to parse/evaluate. -/
inductive CustomCond where
  | empty
  | cond (src : String) (eval : Except Unit (Row → Bool))

/-- Whether a custom condition fails to parse or evaluate. -/
def condErrored : CustomCond → Bool
  | CustomCond.cond _ (Except.error _) => true
  | _ => false

/-- The expected semantic type of a column (`rules["type"]`). -/
inductive RuleType where
  | string
  | number
  | datetime
deriving DecidableEq

/-- A per-column rule, mirroring the dict stored in the rule registry
(lines 62-69 of `src/app.py`). -/
structure Rule where
  type : RuleType
  allow_null : Bool
  allow_duplicates : Bool
  regex : Option (String → Bool)
  max_length : Option ℕ
  custom_condition : CustomCond

/-- The default rule installed for every column when a dataset is loaded
(lines 62-69 of `src/app.py`). -/
def defaultRule : Rule :=
  { type := RuleType.string
    allow_null := false
    allow_duplicates := true
    regex := none
    max_length := none
    custom_condition := CustomCond.empty }

/-- The rule registry: an insertion-ordered mapping from column name to rule
(a Python dict). -/
abbrev RuleRegistry : Type := List (String × Rule)

/-- `BuildDefaultRegistry`: one default rule per column (lines 60-71). -/
def buildDefaultRegistry (cols : List String) : RuleRegistry :=
  cols.map (fun c => (c, defaultRule))

/-- The Save handler's construction of the stored rule (lines 112-119 of
`src/app.py`): the fields are taken as entered except that a `max_length` of
`0` is normalized to `None` (no limit). -/
def saveRule (ty : RuleType) (an ad : Bool) (rgx : Option (String → Bool))
    (maxLen : ℕ) (cc : CustomCond) : Rule :=
  { type := ty
    allow_null := an
    allow_duplicates := ad
    regex := rgx
    max_length := if maxLen = 0 then none else some maxLen
    custom_condition := cc }

/-- The Save handler's registry write
(`st.session_state.rule_registry[column] = {...}`, line 112): a Python dict
assignment, which replaces the entry in place when the key exists and appends
a new entry otherwise. -/
def updateRule (reg : RuleRegistry) (c : String) (r : Rule) : RuleRegistry :=
  if reg.any (fun p => p.1 = c) then
    reg.map (fun p => if p.1 = c then (c, r) else p)
  else
    reg ++ [(c, r)]

/-- One reported violation (the dicts appended to `issues`). -/
structure Issue where
  column : String
  issue : String
deriving DecidableEq

/-- The values of one column in row order (`df[col]`). -/
def colValues (t : Table) (col : String) : List Value :=
  t.rows.map (fun r => r col)

/-- Duplicate check (lines 170-176 of `src/app.py`): when duplicates are
disallowed, `df.duplicated(col, keep=False)` flags every row whose value in
the column also occurs in another row, and one issue is appended per flagged
row. (pandas treats two `NaN` cells as duplicates of each other, as does
`Value` equality.) -/
def duplicateIssues (t : Table) (col : String) (rule : Rule) : List Issue :=
  if rule.allow_duplicates then []
  else
    ((colValues t col).filter (fun v => 2 ≤ (colValues t col).count v)).map
      (fun _ => ⟨col, "Duplicate value found"⟩)

/-- Type check, number case (lines 189-196): `float(value)` failing emits
"Expected numeric value". -/
def numberCheck (col : String) (rule : Rule) (v : Value) : List Issue :=
  if rule.type = RuleType.number then
    (if floatParses v then [] else [⟨col, "Expected numeric value"⟩])
  else []

/-- Type check, datetime case (lines 198-205): `pd.to_datetime(value)` failing
emits "Invalid datetime format". -/
def datetimeCheck (col : String) (rule : Rule) (v : Value) : List Issue :=
  if rule.type = RuleType.datetime then
    (if datetimeParses v then [] else [⟨col, "Invalid datetime format"⟩])
  else []

/-- Regex check (lines 207-213): with a non-empty pattern,
`re.match(pattern, str(value))` returning no match emits
"Regex validation failed". -/
def regexCheck (col : String) (rule : Rule) (v : Value) : List Issue :=
  match rule.regex with
  | none => []
  | some m => if m (pyStr v) then [] else [⟨col, "Regex validation failed"⟩]

/-- Max length check (lines 215-221): the guard `if rules["max_length"]:` is
Python truthiness, false both for `None` and for `0`; with a non-zero limit,
`len(str(value))` exceeding it emits "Max length exceeded". -/
def maxLengthCheck (col : String) (rule : Rule) (v : Value) : List Issue :=
  match rule.max_length with
  | none => []
  | some L =>
    if L ≠ 0 ∧ L < (pyStr v).length then [⟨col, "Max length exceeded"⟩]
    else []

/-- The per-row checks (lines 178-221 of `src/app.py`): a null in a
null-forbidding column short-circuits with "Null value not allowed"
(`continue`); otherwise the type, regex and max-length checks each run. -/
def perRowIssues (col : String) (rule : Rule) (v : Value) : List Issue :=
  if !rule.allow_null && isNull v then [⟨col, "Null value not allowed"⟩]
  else
    numberCheck col rule v ++ datetimeCheck col rule v
      ++ regexCheck col rule v ++ maxLengthCheck col rule v

/-- The message of a per-row custom-rule violation
(`f"Custom rule failed: {condition}"`). -/
def customFailMsg (src : String) : String :=
  "Custom rule failed: " ++ src

/-- Cross-column rule (lines 224-236 of `src/app.py`): with a non-empty
condition, `df.query(f"not (cond)")` selects the violating rows and one issue
is appended per such row; if the query raises, a single "Rule syntax error"
issue is appended instead. -/
def crossColumnIssues (t : Table) (col : String) (rule : Rule) : List Issue :=
  match rule.custom_condition with
  | CustomCond.empty => []
  | CustomCond.cond src (Except.ok p) =>
      (t.rows.filter (fun r => !(p r))).map (fun _ => ⟨col, customFailMsg src⟩)
  | CustomCond.cond _ (Except.error _) => [⟨col, "Rule syntax error"⟩]

/-- All issues contributed by one registry entry, in source order: duplicate
check, then the per-row loop, then the cross-column rule. -/
def columnIssues (t : Table) (col : String) (rule : Rule) : List Issue :=
  duplicateIssues t col rule
    ++ ((colValues t col).map (perRowIssues col rule)).flatten
    ++ crossColumnIssues t col rule

/-- `Validate` (lines 162-236 of `src/app.py`): the issues of every registry
entry, in registry (insertion) order. -/
def validate (t : Table) (reg : RuleRegistry) : List Issue :=
  (reg.map (fun p => columnIssues t p.1 p.2)).flatten

/-- A failure percentage: a finite rational (standing in for the float), or
`inf`, which numpy produces when a positive count is divided by zero rows. -/
inductive Pct where
  | val (q : ℚ)
  | inf
deriving DecidableEq

/-- Comparison on percentages, with `inf` greatest. -/
def pctLE (a b : Pct) : Bool :=
  match a, b with
  | _, Pct.inf => true
  | Pct.inf, Pct.val _ => false
  | Pct.val x, Pct.val y => decide (x ≤ y)

/-- Floor of a rational, computed from its reduced fraction. -/
def ratFloor (q : ℚ) : ℤ := Int.fdiv q.num (q.den : ℤ)

/-- Round a rational to the nearest integer, ties to even — the rounding used
by Python/numpy `round`. -/
def roundHalfEven (q : ℚ) : ℤ :=
  if q - (ratFloor q : ℚ) < 1/2 then ratFloor q
  else if 1/2 < q - (ratFloor q : ℚ) then ratFloor q + 1
  else if ratFloor q % 2 = 0 then ratFloor q else ratFloor q + 1

/-- Model of `round(x, 2)`: round at two decimal places. -/
def round2 (q : ℚ) : ℚ := (roundHalfEven (q * 100) : ℚ) / 100

/-- `round((count / total_rows) * 100, 2)` (lines 256-258 of `src/app.py`).
Every group has `count ≥ 1`, and numpy division of a positive float by zero
yields `inf` rather than raising, whence the `Pct.inf` case. -/
def pct (cnt total : ℕ) : Pct :=
  if total = 0 then Pct.inf
  else Pct.val (round2 ((cnt : ℚ) / (total : ℚ) * 100))

/-- One row of the aggregated summary dataframe (lines 249-258). -/
structure SummaryRow where
  column : String
  issue : String
  failure_count : ℕ
  failure_percentage : Pct
deriving DecidableEq

/-- Lexicographic comparison of strings by code point, as Python compares
them. -/
def charListLT : List Char → List Char → Bool
  | [], [] => false
  | [], _ :: _ => true
  | _ :: _, [] => false
  | a :: as, b :: bs => if a < b then true else if a = b then charListLT as bs else false

/-- Strict code-point order on strings. -/
def strLT (a b : String) : Bool := charListLT a.data b.data

/-- Ascending lexicographic order on group keys: pandas `groupby` with the
default `sort=True` emits the groups sorted by the `(column, issue)` key. -/
def keyLE (a b : String × String) : Bool :=
  if strLT a.1 b.1 then true
  else if a.1 = b.1 then strLT a.2 b.2 || a.2 == b.2
  else false

/-- The distinct `(column, issue)` group keys of an issue list, in the sorted
order pandas `groupby` produces. -/
def groupKeys (issues : List Issue) : List (String × String) :=
  ((issues.map (fun i => (i.column, i.issue))).dedup).insertionSort
    (fun a b => keyLE a b = true)

/-- Model of `sort_values("failure_percentage", ascending=False)` (lines
260-263). The source relies on pandas' default `quicksort`, which fixes no
relative order among tied keys; this model uses a descending insertion sort,
and no theorem below depends on the relative order of rows with equal
`failure_percentage`. -/
def sortByPctDesc (rows : List SummaryRow) : List SummaryRow :=
  rows.insertionSort
    (fun a b => pctLE b.failure_percentage a.failure_percentage = true)

/-- `Summarize` (lines 244-263 of `src/app.py`): group the issues by
`(column, issue)`, count each group, attach the rounded percentage of
`total_rows`, and sort by descending percentage. (With no issues the source
skips aggregation entirely and reports success, which coincides with the
empty summary produced here.) -/
def summarize (issues : List Issue) (total_rows : ℕ) : List SummaryRow :=
  sortByPctDesc <|
    (groupKeys issues).map (fun k =>
      { column := k.1
        issue := k.2
        failure_count := issues.countP (fun i => i.column = k.1 && i.issue = k.2)
        failure_percentage :=
          pct (issues.countP (fun i => i.column = k.1 && i.issue = k.2)) total_rows })

/-! ## Helper lemmas -/

theorem ratFloor_intCast (m : ℤ) : ratFloor (m : ℚ) = m := by
  unfold ratFloor
  rw [Rat.num_intCast, Rat.den_intCast]
  simp

theorem roundHalfEven_intCast (m : ℤ) : roundHalfEven (m : ℚ) = m := by
  unfold roundHalfEven
  rw [ratFloor_intCast, sub_self, if_pos (by norm_num)]

theorem round2_eq_of_mul_cast (q : ℚ) (m : ℤ) (h : q * 100 = (m : ℚ)) :
    round2 q = (m : ℚ) / 100 := by
  unfold round2
  rw [h, roundHalfEven_intCast]

/-- Evaluation rule for `pct` on concrete inputs. -/
theorem pct_eval (cnt total : ℕ) (m : ℤ) (r : ℚ) (ht : ¬ total = 0)
    (h : (cnt : ℚ) / (total : ℚ) * 100 * 100 = (m : ℚ)) (hr : (m : ℚ) / 100 = r) :
    pct cnt total = Pct.val r := by
  unfold pct
  rw [if_neg ht, round2_eq_of_mul_cast _ m h, hr]

theorem pct_zero_total (cnt : ℕ) : pct cnt 0 = Pct.inf := rfl

/-- Counting an issue in a singleton with a different message gives zero. -/
theorem count_one_msg_ne {c1 c2 m1 m2 : String} (h : m2 ≠ m1) :
    List.count (⟨c2, m2⟩ : Issue) [⟨c1, m1⟩] = 0 := by
  simp only [List.count_singleton, beq_iff_eq, Issue.mk.injEq]
  rw [if_neg]
  exact fun hc => h hc.2.symm

theorem customFailMsg_data (s : String) :
    (customFailMsg s).data = 'C' :: ("ustom rule failed: ".data ++ s.data) := by
  unfold customFailMsg
  rw [String.data_append]
  rw [show "Custom rule failed: ".data = 'C' :: "ustom rule failed: ".data by decide]
  rw [List.cons_append]

/-- A string not starting with `C` is not a custom-rule failure message. -/
theorem ne_customFailMsg (msg : String) (hm : msg.data.head? ≠ some 'C')
    (s : String) : msg ≠ customFailMsg s := by
  intro h
  apply hm
  rw [h, customFailMsg_data]
  rfl

/-- The per-row checks only ever emit the five fixed per-row messages. -/
theorem count_perRow_eq_zero (col : String) (rule : Rule) (v : Value) (c2 msg : String)
    (h1 : msg ≠ "Null value not allowed")
    (h2 : msg ≠ "Expected numeric value")
    (h3 : msg ≠ "Invalid datetime format")
    (h4 : msg ≠ "Regex validation failed")
    (h5 : msg ≠ "Max length exceeded") :
    (perRowIssues col rule v).count ⟨c2, msg⟩ = 0 := by
  unfold perRowIssues numberCheck datetimeCheck regexCheck maxLengthCheck
  split
  · exact count_one_msg_ne h1
  · simp only [List.count_append, Nat.add_eq_zero]
    refine ⟨⟨⟨?_, ?_⟩, ?_⟩, ?_⟩ <;>
      (repeat' split) <;>
      first
        | exact List.count_nil _
        | exact count_one_msg_ne h2
        | exact count_one_msg_ne h3
        | exact count_one_msg_ne h4
        | exact count_one_msg_ne h5

/-- The cross-column rule only ever emits "Rule syntax error" or a custom-rule
failure message. -/
theorem count_cross_eq_zero (t : Table) (col : String) (rule : Rule) (c2 msg : String)
    (h1 : msg ≠ "Rule syntax error")
    (h2 : ∀ s, msg ≠ customFailMsg s) :
    (crossColumnIssues t col rule).count ⟨c2, msg⟩ = 0 := by
  unfold crossColumnIssues
  split
  · exact List.count_nil _
  · rename_i s pfn heq
    rw [List.map_const', List.count_replicate]
    rw [if_neg]
    simp only [beq_iff_eq, Issue.mk.injEq]
    exact fun hc => h2 s hc.2.symm
  · exact count_one_msg_ne h1

theorem validate_append (t : Table) (r1 r2 : RuleRegistry) :
    validate t (r1 ++ r2) = validate t r1 ++ validate t r2 := by
  unfold validate
  rw [List.map_append, List.flatten_append]

theorem validate_cons (t : Table) (p : String × Rule) (reg : RuleRegistry) :
    validate t (p :: reg) = columnIssues t p.1 p.2 ++ validate t reg := by
  unfold validate
  rw [List.map_cons, List.flatten_cons]

/-! ## Claims -/

/-- C1: for every column whose rule has `allowDuplicates = false`, the
validator emits exactly one "Duplicate value found" issue per row whose value
appears more than once in the column (keep=none semantics, first occurrence
included), and a column whose values are all distinct produces zero duplicate
issues. -/
theorem duplicate_check_flags_all (t : Table) (col : String) (rule : Rule)
    (hd : rule.allow_duplicates = false) :
    (columnIssues t col rule).count ⟨col, "Duplicate value found"⟩
        = ((colValues t col).filter (fun v => 2 ≤ (colValues t col).count v)).length
      ∧ ((colValues t col).Nodup →
          (columnIssues t col rule).count ⟨col, "Duplicate value found"⟩ = 0) := by
  have hdup : (duplicateIssues t col rule).count ⟨col, "Duplicate value found"⟩
      = ((colValues t col).filter (fun v => 2 ≤ (colValues t col).count v)).length := by
    unfold duplicateIssues
    rw [if_neg (by rw [hd]; exact Bool.false_ne_true), List.map_const']
    exact List.count_replicate_self _ _
  have hrow : (((colValues t col).map (perRowIssues col rule)).flatten).count
      ⟨col, "Duplicate value found"⟩ = 0 := by
    rw [List.count_flatten]
    apply List.sum_eq_zero
    intro x hx
    rw [List.map_map] at hx
    obtain ⟨v, hv, rfl⟩ := List.mem_map.1 hx
    exact count_perRow_eq_zero col rule v col "Duplicate value found" (by decide)
      (by decide) (by decide) (by decide) (by decide)
  have hcross : (crossColumnIssues t col rule).count ⟨col, "Duplicate value found"⟩ = 0 :=
    count_cross_eq_zero t col rule col "Duplicate value found" (by decide)
      (ne_customFailMsg "Duplicate value found" (by decide))
  have hmain : (columnIssues t col rule).count ⟨col, "Duplicate value found"⟩
      = ((colValues t col).filter (fun v => 2 ≤ (colValues t col).count v)).length := by
    unfold columnIssues
    rw [List.count_append, List.count_append, hdup, hrow, hcross]
    omega
  refine ⟨hmain, fun hnd => ?_⟩
  rw [hmain, List.filter_eq_nil_iff.2 ?_]
  · rfl
  · intro v hv
    have hle := List.nodup_iff_count_le_one.1 hnd v
    simp only [decide_eq_true_eq]
    omega

/-- Table for the C1 witness: column value "x" repeats, "y" is unique. -/
def dupTable : Table :=
  { cols := ["a"]
    rows := [fun _ => Value.str "x", fun _ => Value.str "x", fun _ => Value.str "y"] }

/-- Rule for the C1 witness: duplicates disallowed. -/
def noDupRule : Rule := { defaultRule with allow_duplicates := false }

theorem duplicate_check_flags_all_witness :
    (columnIssues dupTable "a" noDupRule).count ⟨"a", "Duplicate value found"⟩ = 2 := by
  have h := (duplicate_check_flags_all dupTable "a" noDupRule rfl).1
  rw [h]
  rfl

/-- C2: a null value in a column whose rule has `allowNull = false` produces
exactly the single issue "Null value not allowed" for that row, and none of
the remaining per-row checks (type, regex, max length) emits an issue for
that row. -/
theorem null_disallowed_short_circuits (col : String) (rule : Rule) (v : Value)
    (hn : rule.allow_null = false) (hv : isNull v = true) :
    perRowIssues col rule v = [⟨col, "Null value not allowed"⟩] := by
  unfold perRowIssues
  rw [hn, hv]
  rfl

/-- Rule for the C2 witness: every remaining per-row check would fire on a
non-null value, yet the null row yields only the null issue. -/
def strictRule : Rule :=
  { type := RuleType.number
    allow_null := false
    allow_duplicates := true
    regex := some (fun _ => false)
    max_length := some 1
    custom_condition := CustomCond.empty }

theorem null_disallowed_short_circuits_witness :
    perRowIssues "amount" strictRule Value.null = [⟨"amount", "Null value not allowed"⟩] :=
  null_disallowed_short_circuits "amount" strictRule Value.null rfl rfl

/-- C8: a saved `maxLength` of zero is normalized to "no limit" (stored as
absent, and a zero limit never acts as a zero-length constraint), and a
non-zero `maxLength` flags exactly the values whose stringification is longer
than the limit: with `maxLength = 5`, `"123456"` is flagged and `"12345"`
passes. -/
theorem max_length_semantics :
    (∀ ty an ad rgx cc, (saveRule ty an ad rgx 0 cc).max_length = none)
      ∧ (∀ col rule v, rule.max_length = some 0 → maxLengthCheck col rule v = [])
      ∧ (∀ col rule v L, rule.max_length = some L → L ≠ 0 →
          maxLengthCheck col rule v
            = (if L < (pyStr v).length then [⟨col, "Max length exceeded"⟩] else []))
      ∧ perRowIssues "c" { defaultRule with max_length := some 5 } (Value.str "123456")
          = [⟨"c", "Max length exceeded"⟩]
      ∧ perRowIssues "c" { defaultRule with max_length := some 5 } (Value.str "12345")
          = [] := by
  refine ⟨fun ty an ad rgx cc => rfl, ?_, ?_, rfl, rfl⟩
  · intro col rule v h
    unfold maxLengthCheck
    rw [h]
    simp
  · intro col rule v L h hL
    unfold maxLengthCheck
    rw [h]
    simp [hL]

theorem max_length_semantics_witness :
    maxLengthCheck "c" { defaultRule with max_length := some 5 } (Value.str "123456")
      = [⟨"c", "Max length exceeded"⟩] := by
  have h := max_length_semantics.2.2.1 "c"
    { defaultRule with max_length := some 5 } (Value.str "123456") 5 rfl (by decide)
  rw [h]
  rfl

/-- C10: with `allowNull = true` a null row is not skipped: the numeric type
check never fires on a null (it parses as a float) and the datetime check
never fires (it parses as `NaT`), while the regex and max-length checks are
applied to the stringified null `"nan"` and can still emit their issues. -/
theorem null_allowed_still_checked (col : String) (rule : Rule)
    (hn : rule.allow_null = true) :
    perRowIssues col rule Value.null
        = regexCheck col rule Value.null ++ maxLengthCheck col rule Value.null
      ∧ numberCheck col rule Value.null = []
      ∧ regexCheck col rule Value.null
          = (match rule.regex with
             | none => []
             | some m => if m "nan" then [] else [⟨col, "Regex validation failed"⟩])
      ∧ maxLengthCheck col rule Value.null
          = (match rule.max_length with
             | none => []
             | some L =>
               if L ≠ 0 ∧ L < "nan".length then [⟨col, "Max length exceeded"⟩]
               else []) := by
  have hnum : numberCheck col rule Value.null = [] := by
    unfold numberCheck
    split <;> rfl
  have hdt : datetimeCheck col rule Value.null = [] := by
    unfold datetimeCheck
    split <;> rfl
  refine ⟨?_, hnum, rfl, rfl⟩
  unfold perRowIssues
  rw [hn]
  simp only [Bool.not_true, Bool.false_and, Bool.false_eq_true, if_false, hnum, hdt,
    List.nil_append]

/-- Rule for the C10 witness: null allowed, a regex the string "nan" fails,
and a limit 2 that "nan" (length 3) exceeds. -/
def lenientRule : Rule :=
  { type := RuleType.number
    allow_null := true
    allow_duplicates := true
    regex := some (fun s => s = "abc")
    max_length := some 2
    custom_condition := CustomCond.empty }

theorem null_allowed_still_checked_witness :
    perRowIssues "c" lenientRule Value.null
      = [⟨"c", "Regex validation failed"⟩, ⟨"c", "Max length exceeded"⟩] := by
  have h := (null_allowed_still_checked "c" lenientRule rfl).1
  rw [h]
  rfl

/-- C3: a custom condition that fails to parse or evaluate contributes exactly
one "Rule syntax error" issue for its column in place of any per-row custom
failures, and the issues of every other registry entry are exactly what they
would be anyway. -/
theorem bad_condition_single_issue (t : Table) (col src : String) (rule : Rule)
    (pre post : RuleRegistry)
    (hc : rule.custom_condition = CustomCond.cond src (Except.error ())) :
    validate t (pre ++ (col, rule) :: post)
      = validate t pre
          ++ (duplicateIssues t col rule
                ++ ((colValues t col).map (perRowIssues col rule)).flatten
                ++ [⟨col, "Rule syntax error"⟩])
          ++ validate t post := by
  rw [validate_append, validate_cons]
  have hcol : columnIssues t col rule
      = duplicateIssues t col rule
          ++ ((colValues t col).map (perRowIssues col rule)).flatten
          ++ [⟨col, "Rule syntax error"⟩] := by
    unfold columnIssues crossColumnIssues
    rw [hc]
  rw [hcol, ← List.append_assoc]

/-- Table for the C3 witness. -/
def probeTable : Table :=
  { cols := ["a", "b"], rows := [fun _ => Value.str "v"] }

/-- Rule for the C3 witness: its condition fails to evaluate. -/
def queryErrRule : Rule :=
  { defaultRule with custom_condition := CustomCond.cond "a >> 1" (Except.error ()) }

theorem bad_condition_single_issue_witness :
    validate probeTable [("b", defaultRule), ("a", queryErrRule)]
      = [⟨"a", "Rule syntax error"⟩] := by
  have h := bad_condition_single_issue probeTable "a" "a >> 1" queryErrRule
    [("b", defaultRule)] [] rfl
  rw [show ([("b", defaultRule)] ++ ("a", queryErrRule) :: ([] : RuleRegistry))
      = [("b", defaultRule), ("a", queryErrRule)] from rfl] at h
  rw [h]
  rfl

/-- C4: every summary row's failureCount is the number of issues in its
(column, message) group and its failurePercentage is the rounded percentage of
the total row count; every issue is represented by a summary row; and on the
issue list [(A,x),(A,x),(B,y)] with 4 total rows the summary is exactly
[{A,x,2,50}, {B,y,1,25}], in descending percentage order. -/
theorem summarize_groups_and_counts (issues : List Issue) (total : ℕ) :
    (∀ r ∈ summarize issues total,
        r.failure_count = issues.countP (fun i => i.column = r.column && i.issue = r.issue)
          ∧ r.failure_percentage = pct r.failure_count total
          ∧ (⟨r.column, r.issue⟩ : Issue) ∈ issues)
      ∧ (∀ i ∈ issues, ∃ r ∈ summarize issues total,
          r.column = i.column ∧ r.issue = i.issue)
      ∧ summarize [⟨"A", "x"⟩, ⟨"A", "x"⟩, ⟨"B", "y"⟩] 4
          = [⟨"A", "x", 2, Pct.val 50⟩, ⟨"B", "y", 1, Pct.val 25⟩] := by
  refine ⟨?_, ?_, ?_⟩
  · intro r hr
    unfold summarize sortByPctDesc at hr
    rw [List.mem_insertionSort _] at hr
    obtain ⟨k, hk, rfl⟩ := List.mem_map.1 hr
    refine ⟨rfl, rfl, ?_⟩
    unfold groupKeys at hk
    rw [List.mem_insertionSort _, List.mem_dedup] at hk
    obtain ⟨i, hi, hik⟩ := List.mem_map.1 hk
    rw [← hik]
    exact hi
  · intro i hi
    have hk : (i.column, i.issue) ∈ groupKeys issues := by
      unfold groupKeys
      rw [List.mem_insertionSort _, List.mem_dedup]
      exact List.mem_map_of_mem _ hi
    have hmem : ((⟨i.column, i.issue,
        issues.countP (fun j => j.column = i.column && j.issue = i.issue),
        pct (issues.countP (fun j => j.column = i.column && j.issue = i.issue))
          total⟩ : SummaryRow)) ∈ summarize issues total := by
      unfold summarize sortByPctDesc
      rw [List.mem_insertionSort _]
      exact List.mem_map_of_mem _ hk
    exact ⟨_, hmem, rfl, rfl⟩
  · have h1 : pct 2 4 = Pct.val 50 :=
      pct_eval 2 4 5000 50 (by norm_num) (by norm_num) (by norm_num)
    have h2 : pct 1 4 = Pct.val 25 :=
      pct_eval 1 4 2500 25 (by norm_num) (by norm_num) (by norm_num)
    have hk : groupKeys [⟨"A", "x"⟩, ⟨"A", "x"⟩, ⟨"B", "y"⟩] = [("A", "x"), ("B", "y")] := by
      decide
    have hc1 : ([⟨"A", "x"⟩, ⟨"A", "x"⟩, ⟨"B", "y"⟩] : List Issue).countP
        (fun i => i.column = "A" && i.issue = "x") = 2 := by decide
    have hc2 : ([⟨"A", "x"⟩, ⟨"A", "x"⟩, ⟨"B", "y"⟩] : List Issue).countP
        (fun i => i.column = "B" && i.issue = "y") = 1 := by decide
    unfold summarize
    rw [hk]
    simp only [List.map_cons, List.map_nil, hc1, hc2, h1, h2]
    decide

theorem summarize_groups_and_counts_witness :
    (⟨"A", "x", 2, Pct.val 50⟩ : SummaryRow).failure_count
      = ([⟨"A", "x"⟩, ⟨"A", "x"⟩, ⟨"B", "y"⟩] : List Issue).countP
          (fun i => i.column = "A" && i.issue = "x") := by
  have h := summarize_groups_and_counts [⟨"A", "x"⟩, ⟨"A", "x"⟩, ⟨"B", "y"⟩] 4
  have hr : (⟨"A", "x", 2, Pct.val 50⟩ : SummaryRow)
      ∈ summarize [⟨"A", "x"⟩, ⟨"A", "x"⟩, ⟨"B", "y"⟩] 4 := by
    rw [h.2.2]
    exact List.mem_cons_self _ _
  exact (h.1 _ hr).1

/-- C6 (amended): an empty registry validates to no issues; a zero-row table
validates to no issues provided no rule carries a failing custom condition;
and summarizing an empty issue list yields the empty summary. -/
theorem empty_validation (t : Table) (reg : RuleRegistry) (n : ℕ) :
    validate t [] = []
      ∧ (t.rows = [] → (∀ p ∈ reg, condErrored p.2.custom_condition = false) →
          validate t reg = [])
      ∧ summarize [] n = [] := by
  refine ⟨rfl, ?_, rfl⟩
  intro hrows
  induction reg with
  | nil => intro _; rfl
  | cons p rest ih =>
    intro hcond
    rw [validate_cons]
    have hcv : colValues t p.1 = [] := by
      unfold colValues
      rw [hrows]
      rfl
    have hdup : duplicateIssues t p.1 p.2 = [] := by
      unfold duplicateIssues
      rw [hcv]
      split <;> rfl
    have hcross : crossColumnIssues t p.1 p.2 = [] := by
      unfold crossColumnIssues
      have hce := hcond p (List.mem_cons_self p rest)
      cases hcc : p.2.custom_condition with
      | empty => rfl
      | cond s e =>
        cases e with
        | ok pr =>
          rw [hrows]
          rfl
        | error u =>
          rw [hcc] at hce
          simp [condErrored] at hce
    have hcol : columnIssues t p.1 p.2 = [] := by
      unfold columnIssues
      rw [hcv, hdup, hcross]
      rfl
    rw [hcol, ih (fun q hq => hcond q (List.mem_cons_of_mem p hq))]
    rfl

/-- Table for C6: one column, no rows. -/
def zeroRowTable : Table := { cols := ["a"], rows := [] }

theorem empty_validation_witness :
    validate zeroRowTable [("a", defaultRule)] = [] :=
  (empty_validation zeroRowTable [("a", defaultRule)] 0).2.1 rfl
    (fun p hp => by rw [List.mem_singleton] at hp; rw [hp]; rfl)

/-- Rule whose custom condition fails to evaluate (e.g. it references a column
absent from the table). -/
def errCondRule : Rule :=
  { defaultRule with custom_condition := CustomCond.cond "b > 0" (Except.error ()) }

/-- C6 counterexample: on a zero-row table, a registry whose rule carries an
unevaluable custom condition still produces a "Rule syntax error" issue, so
Validate does not return the empty issue list for every registry. -/
theorem zero_rows_can_produce_issue :
    validate zeroRowTable [("a", errCondRule)] = [⟨"a", "Rule syntax error"⟩]
      ∧ validate zeroRowTable [("a", errCondRule)] ≠ [] := by
  have h1 : validate zeroRowTable [("a", errCondRule)] = [⟨"a", "Rule syntax error"⟩] := rfl
  exact ⟨h1, by rw [h1]; exact List.cons_ne_nil _ _⟩

/-- C7 (amended): summarizing a non-empty issue list with totalRows = 0 does
not raise a division error, but each summary row's failurePercentage is the
infinity numpy produces for division by zero, not 0. -/
theorem zero_total_percentage_inf (issues : List Issue) (r : SummaryRow)
    (hr : r ∈ summarize issues 0) : r.failure_percentage = Pct.inf := by
  unfold summarize sortByPctDesc at hr
  rw [List.mem_insertionSort _] at hr
  obtain ⟨k, hk, rfl⟩ := List.mem_map.1 hr
  exact pct_zero_total (issues.countP (fun i => i.column = k.1 && i.issue = k.2))

theorem zero_total_percentage_inf_witness :
    (⟨"a", "m", 1, Pct.inf⟩ : SummaryRow).failure_percentage = Pct.inf :=
  zero_total_percentage_inf [⟨"a", "m"⟩] ⟨"a", "m", 1, Pct.inf⟩ (by decide)

/-- C7 counterexample: with one issue and totalRows = 0 the summary row's
failurePercentage is infinity, not 0. -/
theorem zero_total_percentage_not_zero :
    summarize [⟨"a", "m"⟩] 0 = [⟨"a", "m", 1, Pct.inf⟩]
      ∧ (Pct.inf : Pct) ≠ Pct.val 0 :=
  ⟨by decide, by decide⟩

/-- C9 (amended): saving a rule never fails: for a column already in the
registry the entry is replaced in place with the keys unchanged, and for a
column not in the registry a new entry is silently appended; afterwards the
column maps to the new rule and every other column's entry is untouched. -/
theorem update_rule_upserts (reg : RuleRegistry) (c : String) (r : Rule) :
    (reg.any (fun p => p.1 = c) = false → updateRule reg c r = reg ++ [(c, r)])
      ∧ (updateRule reg c r).lookup c = some r
      ∧ (∀ c2, ¬ c2 = c → (updateRule reg c r).lookup c2 = reg.lookup c2)
      ∧ (updateRule reg c r).map Prod.fst
          = (if reg.any (fun p => p.1 = c) then reg.map Prod.fst
             else reg.map Prod.fst ++ [c]) := by
  have hbeF : ∀ {x y : String}, ¬ x = y → (x == y) = false :=
    fun h => beq_eq_false_iff_ne.2 h
  have lookA : ∀ l : RuleRegistry, l.any (fun p => p.1 = c) = false →
      (l ++ [(c, r)]).lookup c = some r := by
    intro l
    induction l with
    | nil =>
      intro _
      rw [List.nil_append, List.lookup_cons, beq_self_eq_true]
    | cons p t ih =>
      intro h
      obtain ⟨k, rv⟩ := p
      rw [List.any_cons, Bool.or_eq_false_iff, decide_eq_false_iff_not] at h
      obtain ⟨hp, ht⟩ := h
      rw [List.cons_append, List.lookup_cons, hbeF (fun he => hp he.symm)]
      exact ih ht
  have lookB : ∀ l : RuleRegistry, l.any (fun p => p.1 = c) = true →
      (l.map (fun p => if p.1 = c then (c, r) else p)).lookup c = some r := by
    intro l
    induction l with
    | nil => intro h; exact absurd h (by simp)
    | cons p t ih =>
      intro h
      obtain ⟨k, rv⟩ := p
      by_cases hk : k = c
      · subst hk
        rw [List.map_cons, if_pos rfl, List.lookup_cons, beq_self_eq_true]
      · rw [List.any_cons] at h
        have ht : t.any (fun p => p.1 = c) = true := by
          rcases Bool.or_eq_true_iff.1 h with h1 | h2
          · exact absurd (of_decide_eq_true h1) hk
          · exact h2
        rw [List.map_cons, if_neg (by simpa using hk), List.lookup_cons,
          hbeF (fun he => hk he.symm)]
        exact ih ht
  have lookC : ∀ (l : RuleRegistry) (c2 : String), ¬ c2 = c →
      (l.map (fun p => if p.1 = c then (c, r) else p)).lookup c2 = l.lookup c2 := by
    intro l c2 hc2
    induction l with
    | nil => rfl
    | cons p t ih =>
      obtain ⟨k, rv⟩ := p
      by_cases hk : k = c
      · subst hk
        rw [List.map_cons, if_pos rfl, List.lookup_cons, List.lookup_cons, hbeF hc2]
        exact ih
      · rw [List.map_cons, if_neg (by simpa using hk), List.lookup_cons, List.lookup_cons]
        by_cases hck : c2 = k
        · subst hck
          rw [beq_self_eq_true]
        · rw [hbeF hck]
          exact ih
  have lookD : ∀ (l : RuleRegistry) (c2 : String), ¬ c2 = c →
      (l ++ [(c, r)]).lookup c2 = l.lookup c2 := by
    intro l c2 hc2
    induction l with
    | nil =>
      rw [List.nil_append, List.lookup_cons, hbeF hc2, List.lookup_nil]
    | cons p t ih =>
      obtain ⟨k, rv⟩ := p
      rw [List.cons_append, List.lookup_cons, List.lookup_cons]
      by_cases hck : c2 = k
      · subst hck
        rw [beq_self_eq_true]
      · rw [hbeF hck]
        exact ih
  have keysB : ∀ l : RuleRegistry,
      (l.map (fun p => if p.1 = c then (c, r) else p)).map Prod.fst
        = l.map Prod.fst := by
    intro l
    induction l with
    | nil => rfl
    | cons p t ih =>
      obtain ⟨k, rv⟩ := p
      rw [List.map_cons, List.map_cons, List.map_cons, ih]
      by_cases hk : k = c
      · subst hk
        rw [if_pos rfl]
      · rw [if_neg (by simpa using hk)]
  by_cases hany : reg.any (fun p => p.1 = c) = true
  · have hu : updateRule reg c r = reg.map (fun p => if p.1 = c then (c, r) else p) := by
      unfold updateRule
      rw [if_pos hany]
    refine ⟨fun hno => absurd hany (by rw [hno]; exact Bool.false_ne_true), ?_, ?_, ?_⟩
    · rw [hu]
      exact lookB reg hany
    · intro c2 hc2
      rw [hu]
      exact lookC reg c2 hc2
    · rw [hu, if_pos hany]
      exact keysB reg
  · have hf : reg.any (fun p => p.1 = c) = false := by
      cases h : reg.any (fun p => p.1 = c) with
      | false => rfl
      | true => exact absurd h hany
    have hu : updateRule reg c r = reg ++ [(c, r)] := by
      unfold updateRule
      rw [if_neg hany]
    refine ⟨fun _ => hu, ?_, ?_, ?_⟩
    · rw [hu]
      exact lookA reg hf
    · intro c2 hc2
      rw [hu]
      exact lookD reg c2 hc2
    · rw [hu, if_neg hany, List.map_append]
      rfl

theorem update_rule_upserts_witness :
    updateRule [] "a" defaultRule = [] ++ [("a", defaultRule)]
      ∧ (updateRule [] "a" defaultRule).lookup "a" = some defaultRule
      ∧ (updateRule [] "a" defaultRule).lookup "b" = ([] : RuleRegistry).lookup "b" :=
  ⟨(update_rule_upserts [] "a" defaultRule).1 rfl,
   (update_rule_upserts [] "a" defaultRule).2.1,
   (update_rule_upserts [] "a" defaultRule).2.2.1 "b" (by decide)⟩

/-- C9 counterexample: setting a rule for a column that is not a key of the
registry does not fail and does not leave the registry unchanged — the entry
is silently inserted (a Python dict assignment has no UnknownColumn error). -/
theorem update_unknown_column_inserts :
    updateRule [] "a" defaultRule = [("a", defaultRule)]
      ∧ updateRule [] "a" defaultRule ≠ [] := by
  have h1 : updateRule [] "a" defaultRule = [("a", defaultRule)] := rfl
  exact ⟨h1, by rw [h1]; exact List.cons_ne_nil _ _⟩

end DataQuality
